import Mathlib

/-!
Verification of the WAL segment addressing and backup coordination layer of
cloud-native-pg-restic-backup.

The embedding mirrors `internal/wal/manager.go` and `internal/backup/backup.go`.
The snapshot store (the restic client) is modelled as an oracle for queries
(`FindSnapshots`) together with an explicit trace of every store call an
operation issues; mutating store calls are assumed to succeed, matching the
spec's assumption that the store itself is correct and available.
-/

/-- A restic snapshot as returned by `FindSnapshots`
(`internal/restic/client_interface.go`). Time is modelled as an integer
timestamp; `Before` on Go times is strict `<`. -/
structure Snapshot where
  id : String
  time : Int
  hostname : String
  tags : List String
deriving DecidableEq, Repr

/-- `wal.Segment` from `internal/wal/manager.go`: Timeline is a uint32,
LogicalID and SegmentID are uint64; modelled as Nat with explicit bounds
proved where they matter. -/
structure Segment where
  timeline : Nat
  logicalID : Nat
  segmentID : Nat
  path : String
  backupID : String
  archivedAt : Int
deriving DecidableEq, Repr

/-- One call made against the snapshot store (the restic client interface). -/
inductive StoreCall where
  | backup : String → List String → StoreCall
  | restoreCall : String → String → StoreCall
  | restoreFile : String → String → String → StoreCall
  | findSnapshots : List String → StoreCall
  | deleteSnapshots : List String → StoreCall
  | ensureDirectory : String → StoreCall
deriving DecidableEq, Repr

/-- The store as seen by the manager: an oracle giving the snapshot list
returned for each `FindSnapshots` tag query. -/
structure Store where
  find : List String → List Snapshot

/-- Uppercase hex digit for a value below 16, as produced by `%X` formatting. -/
def hexDigit (d : Nat) : Char :=
  if d < 10 then Char.ofNat (48 + d) else Char.ofNat (55 + d)

/-- Numeric value of a hex digit character (0 for non-hex characters,
which are excluded before this is used). -/
def hexDigitVal (c : Char) : Nat :=
  if 48 ≤ c.toNat ∧ c.toNat ≤ 57 then c.toNat - 48
  else if 65 ≤ c.toNat ∧ c.toNat ≤ 70 then c.toNat - 55
  else if 97 ≤ c.toNat ∧ c.toNat ≤ 102 then c.toNat - 87
  else 0

/-- Character class `[0-9A-F]` of `walFileRegex`. -/
def isUpperHexDigit (c : Char) : Bool :=
  (48 ≤ c.toNat && c.toNat ≤ 57) || (65 ≤ c.toNat && c.toNat ≤ 70)

/-- Digits accepted by Go's `strconv.ParseUint` with base 16
(upper- and lowercase hex). -/
def isGoHexDigit (c : Char) : Bool :=
  (48 ≤ c.toNat && c.toNat ≤ 57) || (65 ≤ c.toNat && c.toNat ≤ 70) ||
    (97 ≤ c.toNat && c.toNat ≤ 102)

/-- Whether `walFileRegex = ^([0-9A-F]{8})([0-9A-F]{8})([0-9A-F]{8})$`
matches a string: exactly 24 characters, all uppercase hex. The three capture
groups are then characters 0-7, 8-15 and 16-23. -/
def walFileRegexMatch (s : String) : Bool :=
  s.data.length == 24 && s.data.all isUpperHexDigit

/-- Value of a hex digit string, most significant digit first. -/
def hexGroupVal (cs : List Char) : Nat :=
  cs.foldl (fun acc c => acc * 16 + hexDigitVal c) 0

/-- Go's `strconv.ParseUint(s, 16, bitSize)`: fails on an empty string, on any
non-hex character, and on values not fitting in `bitSize` bits. -/
def goParseUintHex (cs : List Char) (bitSize : Nat) : Except String Nat :=
  if cs.isEmpty then .error "invalid syntax"
  else if cs.all isGoHexDigit then
    if hexGroupVal cs < 2 ^ bitSize then .ok (hexGroupVal cs)
    else .error "value out of range"
  else .error "invalid syntax"

/-- `wal.ParseWALFileName` from `internal/wal/manager.go`: regex match, then
the three groups parsed as uint32 / uint64 / uint64. -/
def ParseWALFileName (name : String) : Except String Segment :=
  if walFileRegexMatch name then
    match goParseUintHex (name.data.take 8) 32 with
    | .error e => .error ("invalid timeline: " ++ e)
    | .ok timeline =>
      match goParseUintHex ((name.data.drop 8).take 8) 64 with
      | .error e => .error ("invalid logical ID: " ++ e)
      | .ok logicalID =>
        match goParseUintHex (name.data.drop 16) 64 with
        | .error e => .error ("invalid segment ID: " ++ e)
        | .ok segmentID =>
          .ok { timeline := timeline, logicalID := logicalID,
                segmentID := segmentID, path := "", backupID := "",
                archivedAt := 0 }
  else .error ("invalid WAL file name format: " ++ name)

/-- Go's `filepath.Base` on unix paths: empty path gives `"."`, trailing
slashes are stripped, the last path element is returned, an all-slash path
gives `"/"`. -/
def filepathBase (path : String) : String :=
  if path = "" then "."
  else
    let r := path.data.reverse.dropWhile (fun c => c.toNat == 47)
    let b := r.takeWhile (fun c => c.toNat != 47)
    if b.isEmpty then "/" else String.mk b.reverse

/-- Split a character list on slashes, discarding empty components
(helper for `filepath.Clean`). -/
def splitSlash : List Char → List Char → List (List Char)
  | [], acc => if acc.isEmpty then [] else [acc.reverse]
  | c :: rest, acc =>
    if c.toNat == 47 then
      if acc.isEmpty then splitSlash rest []
      else acc.reverse :: splitSlash rest []
    else splitSlash rest (c :: acc)

/-- One step of `filepath.Clean`'s element processing: `.` is dropped, `..`
pops a non-`..` stack entry (or is dropped at the root, or kept when the path
is relative), anything else is pushed. The stack holds elements in reverse. -/
def cleanStep (rooted : Bool) (stack : List (List Char)) (elem : List Char) :
    List (List Char) :=
  if elem = [Char.ofNat 46] then stack
  else if elem = [Char.ofNat 46, Char.ofNat 46] then
    match stack with
    | [] => if rooted then [] else [elem]
    | top :: rest =>
      if top = [Char.ofNat 46, Char.ofNat 46] then elem :: stack else rest
  else elem :: stack

/-- Go's `filepath.Clean` on unix paths. -/
def filepathClean (path : String) : String :=
  if path = "" then "."
  else
    let rooted := match path.data with
      | c :: _ => c.toNat == 47
      | [] => false
    let elems := splitSlash path.data []
    let stack := elems.foldl (cleanStep rooted) []
    let body := List.intercalate [Char.ofNat 47] stack.reverse
    if rooted then String.mk (Char.ofNat 47 :: body)
    else if body.isEmpty then "." else String.mk body

/-- Go's `filepath.Dir`: everything up to and including the final slash,
cleaned; `"."` when there is no slash. -/
def filepathDir (path : String) : String :=
  let dirPart := (path.data.reverse.dropWhile (fun c => c.toNat != 47)).reverse
  filepathClean (String.mk dirPart)

/-- `Manager.GetWALTimeline`: list `type:wal` snapshots; empty list gives the
bootstrap timeline 1; otherwise scan the first snapshot's tags for the first
tag fully matching the WAL-name regex and return its parsed timeline. -/
def GetWALTimeline (store : Store) : Except String Nat × List StoreCall :=
  let snapshots := store.find ["type:wal"]
  let trace := [StoreCall.findSnapshots ["type:wal"]]
  match snapshots with
  | [] => (.ok 1, trace)
  | snap :: _ =>
    match snap.tags.find? walFileRegexMatch with
    | some walFile =>
      match ParseWALFileName walFile with
      | .error e => (.error ("failed to parse WAL file name: " ++ e), trace)
      | .ok segment => (.ok segment.timeline, trace)
    | none => (.error "no valid WAL file found in latest snapshot", trace)

/-- `Manager.ArchiveWAL`: parse the base filename, build the five WAL tags,
back up the path. A parse failure aborts before any store call. -/
def ArchiveWAL (store : Store) (walPath : String) :
    Except String Unit × List StoreCall :=
  let walFileName := filepathBase walPath
  match ParseWALFileName walFileName with
  | .error e => (.error ("failed to parse WAL file name: " ++ e), [])
  | .ok segment =>
    let tags := ["type:wal",
      "timeline:" ++ toString segment.timeline,
      "logical_id:" ++ toString segment.logicalID,
      "segment_id:" ++ toString segment.segmentID,
      "wal_file:" ++ walFileName]
    (.ok (), [StoreCall.backup walPath tags])

/-- `Manager.FindWALSegment`: parse the name, query
`{type:wal, wal_file:<name>}`, fail when no snapshot matches, otherwise
populate the segment from the first listed snapshot. -/
def FindWALSegment (store : Store) (walFileName : String) :
    Except String Segment × List StoreCall :=
  match ParseWALFileName walFileName with
  | .error e => (.error ("failed to parse WAL file name: " ++ e), [])
  | .ok segment =>
    let query := ["type:wal", "wal_file:" ++ walFileName]
    let trace := [StoreCall.findSnapshots query]
    match store.find query with
    | [] => (.error ("WAL segment not found: " ++ walFileName), trace)
    | latest :: _ =>
      (.ok { segment with backupID := latest.id, archivedAt := latest.time },
       trace)

/-- `Manager.RestoreWALSegment`: find the segment, ensure the target
directory, restore the single file from the found snapshot. -/
def RestoreWALSegment (store : Store) (walFileName targetPath : String) :
    Except String Unit × List StoreCall :=
  match FindWALSegment store walFileName with
  | (.error e, trace) => (.error e, trace)
  | (.ok segment, trace) =>
    let targetDir := filepathDir targetPath
    (.ok (), trace ++ [StoreCall.ensureDirectory targetDir,
      StoreCall.restoreFile segment.backupID walFileName targetPath])

/-- `Manager.CleanupWALSegments`: list `type:wal` snapshots, collect the ids
of those strictly before the cutoff, and bulk-delete them only when that
list is non-empty. -/
def CleanupWALSegments (store : Store) (cutoff : Int) :
    Except String Unit × List StoreCall :=
  let snapshots := store.find ["type:wal"]
  let trace := [StoreCall.findSnapshots ["type:wal"]]
  let snapshotsToDelete :=
    (snapshots.filter (fun s => s.time < cutoff)).map (fun s => s.id)
  if snapshotsToDelete.isEmpty then (.ok (), trace)
  else (.ok (), trace ++ [StoreCall.deleteSnapshots snapshotsToDelete])

/-- `handlerImpl.CreateBackup` from `internal/backup/backup.go`: reject an
empty data directory, resolve the timeline, back up with
`{type:full, timeline:<n>}` tags. -/
def CreateBackup (store : Store) (dataDir : String) :
    Except String Unit × List StoreCall :=
  if dataDir = "" then (.error "data directory not specified", [])
  else
    match GetWALTimeline store with
    | (.error e, trace) =>
      (.error ("failed to get WAL timeline: " ++ e), trace)
    | (.ok timeline, trace) =>
      let tags := ["type:full", "timeline:" ++ toString timeline]
      (.ok (), trace ++ [StoreCall.backup dataDir tags])

/-- Number of snapshot ids removed across a store-call trace: the total size
of all bulk-delete calls issued. -/
def deletedCount (trace : List StoreCall) : Nat :=
  (trace.map (fun c => match c with
    | StoreCall.deleteSnapshots ids => ids.length
    | _ => 0)).sum

/-- Modelled from the spec: the repository has no function rendering a segment
triple back into the 24-character name; §4.1 describes the reverse direction
of the codec as formatting each integer as an 8-character uppercase-hex
group. `natToHexChars w n` is the `w`-digit uppercase-hex rendering of `n`. -/
def natToHexChars : Nat → Nat → List Char
  | 0, _ => []
  | w + 1, n => natToHexChars w (n / 16) ++ [hexDigit (n % 16)]

/-- Modelled from the spec: `format` of the round-trip property (§8),
three 8-digit uppercase-hex groups concatenated. -/
def formatWALFileName (t l s : Nat) : String :=
  String.mk (natToHexChars 8 t ++ natToHexChars 8 l ++ natToHexChars 8 s)

/-- Modelled from the spec: the WAL replay order on segments (§3): compare
timeline first, then logicalFileID, then segmentID, ascending. -/
def segBefore (a b : Segment) : Prop :=
  a.timeline < b.timeline ∨
    (a.timeline = b.timeline ∧
      (a.logicalID < b.logicalID ∨
        (a.logicalID = b.logicalID ∧ a.segmentID < b.segmentID)))

instance (a b : Segment) : Decidable (segBefore a b) := by
  unfold segBefore; exact inferInstance

/-! ### Helper lemmas about the hex codec -/

lemma hexDigitVal_lt (c : Char) : hexDigitVal c < 16 := by
  unfold hexDigitVal
  split
  · omega
  · split
    · omega
    · split <;> omega

lemma hexDigit_isUpper : ∀ d, d < 16 → isUpperHexDigit (hexDigit d) = true := by
  decide

lemma hexDigitVal_hexDigit : ∀ d, d < 16 → hexDigitVal (hexDigit d) = d := by
  decide

lemma isUpper_isGo (c : Char) (h : isUpperHexDigit c = true) :
    isGoHexDigit c = true := by
  simp only [isUpperHexDigit, Bool.or_eq_true, Bool.and_eq_true,
    decide_eq_true_eq] at h
  simp only [isGoHexDigit, Bool.or_eq_true, Bool.and_eq_true,
    decide_eq_true_eq]
  omega

lemma natToHexChars_length (w n : Nat) : (natToHexChars w n).length = w := by
  induction w generalizing n with
  | zero => simp [natToHexChars]
  | succ w ih => simp [natToHexChars, ih]

lemma natToHexChars_upper (w n : Nat) :
    ∀ c ∈ natToHexChars w n, isUpperHexDigit c = true := by
  induction w generalizing n with
  | zero => simp [natToHexChars]
  | succ w ih =>
    intro c hc
    simp only [natToHexChars, List.mem_append, List.mem_singleton] at hc
    rcases hc with hc | hc
    · exact ih (n / 16) c hc
    · subst hc
      exact hexDigit_isUpper (n % 16) (Nat.mod_lt _ (by norm_num))

lemma hexGroupVal_snoc (cs : List Char) (c : Char) :
    hexGroupVal (cs ++ [c]) = hexGroupVal cs * 16 + hexDigitVal c := by
  simp [hexGroupVal, List.foldl_append]

lemma natToHexChars_val (w : Nat) :
    ∀ n, n < 16 ^ w → hexGroupVal (natToHexChars w n) = n := by
  induction w with
  | zero =>
    intro n h
    have hn : n = 0 := by simpa using h
    simp [natToHexChars, hexGroupVal, hn]
  | succ w ih =>
    intro n h
    have hdiv : n / 16 < 16 ^ w := by
      rw [Nat.div_lt_iff_lt_mul (by norm_num : 0 < 16)]
      calc n < 16 ^ (w + 1) := h
        _ = 16 ^ w * 16 := by rw [pow_succ]
    rw [natToHexChars, hexGroupVal_snoc, ih (n / 16) hdiv,
      hexDigitVal_hexDigit (n % 16) (Nat.mod_lt _ (by norm_num))]
    omega

lemma hexGroupVal_foldl_lt (cs : List Char) :
    ∀ acc : Nat,
      cs.foldl (fun a c => a * 16 + hexDigitVal c) acc <
        (acc + 1) * 16 ^ cs.length := by
  induction cs with
  | nil => intro acc; simp
  | cons c cs ih =>
    intro acc
    have hstep := ih (acc * 16 + hexDigitVal c)
    have hc : hexDigitVal c < 16 := hexDigitVal_lt c
    simp only [List.foldl_cons, List.length_cons]
    calc (cs.foldl (fun a c => a * 16 + hexDigitVal c)
            (acc * 16 + hexDigitVal c))
        < (acc * 16 + hexDigitVal c + 1) * 16 ^ cs.length := hstep
      _ ≤ ((acc + 1) * 16) * 16 ^ cs.length := by
          apply Nat.mul_le_mul_right
          omega
      _ = (acc + 1) * 16 ^ (cs.length + 1) := by ring
  
lemma hexGroupVal_lt_pow (cs : List Char) :
    hexGroupVal cs < 16 ^ cs.length := by
  have := hexGroupVal_foldl_lt cs 0
  simpa [hexGroupVal] using this

lemma goParseUintHex_ok (cs : List Char) (b : Nat) (h1 : cs ≠ [])
    (h2 : ∀ c ∈ cs, isGoHexDigit c = true)
    (h3 : hexGroupVal cs < 2 ^ b) :
    goParseUintHex cs b = .ok (hexGroupVal cs) := by
  have e1 : cs.isEmpty = false := by
    cases cs with
    | nil => exact absurd rfl h1
    | cons c cs => rfl
  have e2 : cs.all isGoHexDigit = true := List.all_eq_true.mpr h2
  simp [goParseUintHex, e1, e2, h3]

lemma parseWALFileName_of_match (s : String)
    (h : walFileRegexMatch s = true) :
    ParseWALFileName s =
      .ok { timeline := hexGroupVal (s.data.take 8),
            logicalID := hexGroupVal ((s.data.drop 8).take 8),
            segmentID := hexGroupVal (s.data.drop 16),
            path := "", backupID := "", archivedAt := 0 } := by
  have hm := h
  simp only [walFileRegexMatch, Bool.and_eq_true, beq_iff_eq,
    List.all_eq_true] at hm
  obtain ⟨hlen, hall⟩ := hm
  have h16 : (16 : Nat) ^ 8 = 2 ^ 32 := by norm_num
  have l1 : (s.data.take 8).length = 8 := by
    simp [List.length_take, hlen]
  have l2 : ((s.data.drop 8).take 8).length = 8 := by
    simp [List.length_take, List.length_drop, hlen]
  have l3 : (s.data.drop 16).length = 8 := by
    simp [List.length_drop, hlen]
  have b1 : hexGroupVal (s.data.take 8) < 2 ^ 32 := by
    have := hexGroupVal_lt_pow (s.data.take 8)
    rwa [l1, h16] at this
  have b2 : hexGroupVal ((s.data.drop 8).take 8) < 2 ^ 64 := by
    have := hexGroupVal_lt_pow ((s.data.drop 8).take 8)
    rw [l2] at this
    calc hexGroupVal ((s.data.drop 8).take 8) < 16 ^ 8 := this
      _ ≤ 2 ^ 64 := by norm_num
  have b3 : hexGroupVal (s.data.drop 16) < 2 ^ 64 := by
    have := hexGroupVal_lt_pow (s.data.drop 16)
    rw [l3] at this
    calc hexGroupVal (s.data.drop 16) < 16 ^ 8 := this
      _ ≤ 2 ^ 64 := by norm_num
  have ne1 : s.data.take 8 ≠ [] := by
    intro hn; rw [hn] at l1; simp at l1
  have ne2 : (s.data.drop 8).take 8 ≠ [] := by
    intro hn; rw [hn] at l2; simp at l2
  have ne3 : s.data.drop 16 ≠ [] := by
    intro hn; rw [hn] at l3; simp at l3
  have g1 : ∀ c ∈ s.data.take 8, isGoHexDigit c = true :=
    fun c hc => isUpper_isGo c (hall c (List.take_subset _ _ hc))
  have g2 : ∀ c ∈ (s.data.drop 8).take 8, isGoHexDigit c = true :=
    fun c hc =>
      isUpper_isGo c (hall c (List.drop_subset _ _ (List.take_subset _ _ hc)))
  have g3 : ∀ c ∈ s.data.drop 16, isGoHexDigit c = true :=
    fun c hc => isUpper_isGo c (hall c (List.drop_subset _ _ hc))
  have gp1 := goParseUintHex_ok (s.data.take 8) 32 ne1 g1 b1
  have gp2 := goParseUintHex_ok ((s.data.drop 8).take 8) 64 ne2 g2 b2
  have gp3 := goParseUintHex_ok (s.data.drop 16) 64 ne3 g3 b3
  simp [ParseWALFileName, h, gp1, gp2, gp3]

/-! ### Claim theorems -/

/-- C8: for every input string that is not exactly three consecutive
8-character uppercase-hexadecimal groups, `ParseWALFileName` fails with the
invalid-format error carrying the offending input. -/
theorem parseWALFileName_rejects (s : String)
    (h : walFileRegexMatch s = false) :
    ParseWALFileName s = .error ("invalid WAL file name format: " ++ s) := by
  simp [ParseWALFileName, h]

theorem parseWALFileName_rejects_witness :
    walFileRegexMatch "0000000a0000000000000001" = false ∧
    ParseWALFileName "0000000a0000000000000001" =
      .error "invalid WAL file name format: 0000000a0000000000000001" :=
  ⟨rfl, parseWALFileName_rejects "0000000a0000000000000001" rfl⟩

/-- C10: on every string accepted by the WAL-name regex all three integer
conversions succeed — the integer-parse error branches of `ParseWALFileName`
are unreachable — and every successfully parsed segment has its logicalID
and segmentID below 2^32 (each group is 8 hex digits). -/
theorem parseWALFileName_succeeds_on_match (s : String)
    (h : walFileRegexMatch s = true) :
    ParseWALFileName s =
      .ok { timeline := hexGroupVal (s.data.take 8),
            logicalID := hexGroupVal ((s.data.drop 8).take 8),
            segmentID := hexGroupVal (s.data.drop 16),
            path := "", backupID := "", archivedAt := 0 } ∧
    hexGroupVal (s.data.take 8) < 2 ^ 32 ∧
    hexGroupVal ((s.data.drop 8).take 8) < 2 ^ 32 ∧
    hexGroupVal (s.data.drop 16) < 2 ^ 32 := by
  have hm := h
  simp only [walFileRegexMatch, Bool.and_eq_true, beq_iff_eq,
    List.all_eq_true] at hm
  obtain ⟨hlen, _⟩ := hm
  have h16 : (16 : Nat) ^ 8 = 2 ^ 32 := by norm_num
  have l1 : (s.data.take 8).length = 8 := by
    simp [List.length_take, hlen]
  have l2 : ((s.data.drop 8).take 8).length = 8 := by
    simp [List.length_take, List.length_drop, hlen]
  have l3 : (s.data.drop 16).length = 8 := by
    simp [List.length_drop, hlen]
  refine ⟨parseWALFileName_of_match s h, ?_, ?_, ?_⟩
  · have := hexGroupVal_lt_pow (s.data.take 8)
    rwa [l1, h16] at this
  · have := hexGroupVal_lt_pow ((s.data.drop 8).take 8)
    rwa [l2, h16] at this
  · have := hexGroupVal_lt_pow (s.data.drop 16)
    rwa [l3, h16] at this

theorem parseWALFileName_succeeds_on_match_witness :
    ParseWALFileName "000000010000000000000001" =
      .ok { timeline := 1, logicalID := 0, segmentID := 1,
            path := "", backupID := "", archivedAt := 0 } ∧
    (1 : Nat) < 2 ^ 32 ∧ (0 : Nat) < 2 ^ 32 ∧ (1 : Nat) < 2 ^ 32 :=
  parseWALFileName_succeeds_on_match "000000010000000000000001" rfl

/-- C7: for every triple representable in the 24-character name format
(each component below 2^32, hence formattable as 8 uppercase hex digits),
parsing the formatted name returns exactly the original triple. -/
theorem parse_format_roundtrip (t l s : Nat)
    (ht : t < 2 ^ 32) (hl : l < 2 ^ 32) (hs : s < 2 ^ 32) :
    ParseWALFileName (formatWALFileName t l s) =
      .ok { timeline := t, logicalID := l, segmentID := s,
            path := "", backupID := "", archivedAt := 0 } := by
  have h16 : (16 : Nat) ^ 8 = 2 ^ 32 := by norm_num
  have ht16 : t < 16 ^ 8 := by rwa [h16]
  have hl16 : l < 16 ^ 8 := by rwa [h16]
  have hs16 : s < 16 ^ 8 := by rwa [h16]
  have hdata : (formatWALFileName t l s).data =
      natToHexChars 8 t ++ natToHexChars 8 l ++ natToHexChars 8 s := rfl
  have hmatch : walFileRegexMatch (formatWALFileName t l s) = true := by
    simp only [walFileRegexMatch, hdata, Bool.and_eq_true, beq_iff_eq,
      List.all_eq_true]
    constructor
    · simp [List.length_append, natToHexChars_length]
    · intro c hc
      simp only [List.mem_append] at hc
      rcases hc with (hc | hc) | hc
      · exact natToHexChars_upper 8 t c hc
      · exact natToHexChars_upper 8 l c hc
      · exact natToHexChars_upper 8 s c hc
  have hA : (formatWALFileName t l s).data.take 8 = natToHexChars 8 t := by
    rw [hdata, List.append_assoc]
    exact List.take_left' (natToHexChars_length 8 t)
  have hBC : (formatWALFileName t l s).data.drop 8 =
      natToHexChars 8 l ++ natToHexChars 8 s := by
    rw [hdata, List.append_assoc]
    exact List.drop_left' (natToHexChars_length 8 t)
  have hB : ((formatWALFileName t l s).data.drop 8).take 8 =
      natToHexChars 8 l := by
    rw [hBC]
    exact List.take_left' (natToHexChars_length 8 l)
  have hC : (formatWALFileName t l s).data.drop 16 = natToHexChars 8 s := by
    rw [hdata]
    exact List.drop_left'
      (by simp [List.length_append, natToHexChars_length])
  have := parseWALFileName_of_match (formatWALFileName t l s) hmatch
  rw [hA, hB, hC, natToHexChars_val 8 t ht16, natToHexChars_val 8 l hl16,
    natToHexChars_val 8 s hs16] at this
  exact this

theorem parse_format_roundtrip_witness :
    ParseWALFileName (formatWALFileName 3 0 1) =
      .ok { timeline := 3, logicalID := 0, segmentID := 1,
            path := "", backupID := "", archivedAt := 0 } :=
  parse_format_roundtrip 3 0 1 (by norm_num) (by norm_num) (by norm_num)

/-- C9: the segment ordering comparing timeline, then logicalID, then
segmentID, ascending, is a strict total order: segments with distinct triples
are comparable in exactly one direction, and the order is transitive. -/
theorem segBefore_strict_total_order (a b c : Segment) :
    (¬ (a.timeline = b.timeline ∧ a.logicalID = b.logicalID ∧
          a.segmentID = b.segmentID) →
        (segBefore a b ∨ segBefore b a) ∧
          ¬ (segBefore a b ∧ segBefore b a)) ∧
    (segBefore a b → segBefore b c → segBefore a c) := by
  unfold segBefore
  constructor
  · intro h
    constructor
    · omega
    · omega
  · intro h1 h2
    omega

def segA : Segment := ⟨1, 0, 1, "", "", 0⟩

def segB : Segment := ⟨1, 0, 2, "", "", 0⟩

def segC : Segment := ⟨2, 0, 0, "", "", 0⟩

theorem segBefore_strict_total_order_witness :
    ((segBefore segA segB ∨ segBefore segB segA) ∧
      ¬ (segBefore segA segB ∧ segBefore segB segA)) ∧
    segBefore segA segC :=
  ⟨(segBefore_strict_total_order segA segB segC).1 (by decide),
   (segBefore_strict_total_order segA segB segC).2 (by decide) (by decide)⟩

/-- C4: when the store reports zero `type:wal` snapshots, `GetWALTimeline`
returns the bootstrap timeline 1 without error. -/
theorem getWALTimeline_bootstrap (store : Store)
    (h : store.find ["type:wal"] = []) :
    GetWALTimeline store = (.ok 1, [StoreCall.findSnapshots ["type:wal"]]) := by
  simp [GetWALTimeline, h]

theorem getWALTimeline_bootstrap_witness :
    GetWALTimeline ⟨fun _ => []⟩ =
      (.ok 1, [StoreCall.findSnapshots ["type:wal"]]) :=
  getWALTimeline_bootstrap ⟨fun _ => []⟩ rfl

/-- C6: when the base filename of `walPath` does not parse as a WAL segment
name, `ArchiveWAL` fails with the wrapped invalid-name error and issues no
store call at all (empty call trace), for every store. -/
theorem archiveWAL_invalid_name (store : Store) (walPath e : String)
    (h : ParseWALFileName (filepathBase walPath) = .error e) :
    ArchiveWAL store walPath =
      (.error ("failed to parse WAL file name: " ++ e), []) := by
  simp [ArchiveWAL, h]

theorem archiveWAL_invalid_name_witness :
    ArchiveWAL ⟨fun _ => []⟩ "/wal/garbage" =
      (.error
        "failed to parse WAL file name: invalid WAL file name format: garbage",
       []) :=
  archiveWAL_invalid_name ⟨fun _ => []⟩ "/wal/garbage"
    "invalid WAL file name format: garbage" rfl

/-- C2: a successful `ArchiveWAL` of `/wal/000000010000000000000001` passes
to the store backup call exactly the tags `type:wal`, `timeline:1`,
`logical_id:0`, `segment_id:1`, `wal_file:000000010000000000000001` (the
numeric tags are decimal renderings of the parsed hex groups), and nothing
else; this holds for every store. -/
theorem archiveWAL_tags_exact (store : Store) :
    ArchiveWAL store "/wal/000000010000000000000001" =
      (.ok (), [StoreCall.backup "/wal/000000010000000000000001"
        ["type:wal", "timeline:1", "logical_id:0", "segment_id:1",
         "wal_file:000000010000000000000001"]]) := by
  rfl

/-- C5: for every syntactically valid WAL file name whose
`{type:wal, wal_file:<name>}` query returns no snapshot,
`RestoreWALSegment` fails with the segment-not-found error and its store
trace holds only that query: no restore-file call and no directory-creation
call is made. -/
theorem restoreWALSegment_not_found (store : Store)
    (walFileName targetPath : String) (seg : Segment)
    (hparse : ParseWALFileName walFileName = .ok seg)
    (hfind : store.find ["type:wal", "wal_file:" ++ walFileName] = []) :
    RestoreWALSegment store walFileName targetPath =
      (.error ("WAL segment not found: " ++ walFileName),
       [StoreCall.findSnapshots ["type:wal", "wal_file:" ++ walFileName]]) ∧
    ∀ call ∈ (RestoreWALSegment store walFileName targetPath).2,
      (∀ a b c : String, call ≠ StoreCall.restoreFile a b c) ∧
      (∀ p : String, call ≠ StoreCall.ensureDirectory p) := by
  have h1 : RestoreWALSegment store walFileName targetPath =
      (.error ("WAL segment not found: " ++ walFileName),
       [StoreCall.findSnapshots ["type:wal", "wal_file:" ++ walFileName]]) := by
    simp [RestoreWALSegment, FindWALSegment, hparse, hfind]
  refine ⟨h1, ?_⟩
  intro call hc
  rw [h1] at hc
  simp only [List.mem_singleton] at hc
  subst hc
  exact ⟨fun a b c => by simp, fun p => by simp⟩

theorem restoreWALSegment_not_found_witness :
    RestoreWALSegment ⟨fun _ => []⟩ "000000010000000000000099" "/x" =
      (.error "WAL segment not found: 000000010000000000000099",
       [StoreCall.findSnapshots
         ["type:wal", "wal_file:000000010000000000000099"]]) :=
  (restoreWALSegment_not_found ⟨fun _ => []⟩ "000000010000000000000099" "/x"
    ⟨1, 0, 153, "", "", 0⟩ rfl rfl).1

/-- C3 counterexample: the claim says `cleanupBefore` returns the count of
snapshots removed, but `Manager.CleanupWALSegments` returns error-only. Two
runs removing different numbers of snapshots — one bulk-deletes a single
snapshot, the other deletes nothing — yield the identical success value
`ok ()`: the function's return value carries no count. -/
theorem cleanupWALSegments_returns_no_count :
    (CleanupWALSegments ⟨fun _ => [⟨"old", -1, "h", []⟩]⟩ 0).1 = .ok () ∧
    (CleanupWALSegments ⟨fun _ => []⟩ 0).1 = .ok () ∧
    (CleanupWALSegments ⟨fun _ => [⟨"old", -1, "h", []⟩]⟩ 0).1 =
      (CleanupWALSegments ⟨fun _ => []⟩ 0).1 ∧
    deletedCount (CleanupWALSegments ⟨fun _ => [⟨"old", -1, "h", []⟩]⟩ 0).2
      = 1 ∧
    deletedCount (CleanupWALSegments ⟨fun _ => []⟩ 0).2 = 0 :=
  ⟨rfl, rfl, rfl, rfl, rfl⟩

/-- C3 (amended): for every cutoff and store state, `CleanupWALSegments`
selects exactly the `type:wal` snapshots whose time is strictly before the
cutoff, issues a single bulk delete of exactly those ids only when that
subset is non-empty (no delete call otherwise), and succeeds — its return
value is success/error only and carries no count; the count removed, equal
to the size of that subset (0 for the empty subset), is observable only as
the size of the bulk-delete call. -/
theorem cleanupWALSegments_strict_cutoff (store : Store) (cutoff : Int) :
    CleanupWALSegments store cutoff =
      (.ok (),
        if ((store.find ["type:wal"]).filter
              (fun s => s.time < cutoff)).isEmpty then
          [StoreCall.findSnapshots ["type:wal"]]
        else
          [StoreCall.findSnapshots ["type:wal"],
           StoreCall.deleteSnapshots
             (((store.find ["type:wal"]).filter
                 (fun s => s.time < cutoff)).map (fun s => s.id))]) ∧
    deletedCount (CleanupWALSegments store cutoff).2 =
      ((store.find ["type:wal"]).filter (fun s => s.time < cutoff)).length := by
  rcases hsel : (store.find ["type:wal"]).filter (fun s => s.time < cutoff)
    with _ | ⟨s, rest⟩ <;>
    simp [CleanupWALSegments, deletedCount, hsel]

/-- C1: against any store whose listing of `type:wal` snapshots is non-empty
and whose first listed snapshot resolves (via its first regex-matching tag)
to a segment `seg`, `CreateBackup "/data"` succeeds and sends the store a
backup call whose tag set is exactly `type:full` and `timeline:<t>` where
`t` is the resolved timeline — in particular it contains both `type:full`
and `timeline:3` when the resolved timeline is 3. -/
theorem createBackup_timeline_tags (store : Store) (snap : Snapshot)
    (rest : List Snapshot) (walFile : String) (seg : Segment)
    (hfind : store.find ["type:wal"] = snap :: rest)
    (htag : snap.tags.find? walFileRegexMatch = some walFile)
    (hparse : ParseWALFileName walFile = .ok seg) :
    CreateBackup store "/data" =
      (.ok (), [StoreCall.findSnapshots ["type:wal"],
        StoreCall.backup "/data"
          ["type:full", "timeline:" ++ toString seg.timeline]]) ∧
    "type:full" ∈ ["type:full", "timeline:" ++ toString seg.timeline] ∧
    ("timeline:" ++ toString seg.timeline) ∈
      ["type:full", "timeline:" ++ toString seg.timeline] := by
  refine ⟨?_, by simp, by simp⟩
  simp [CreateBackup, GetWALTimeline, hfind, htag, hparse]

theorem createBackup_timeline_tags_witness :
    CreateBackup
        ⟨fun _ => [⟨"s1", 0, "h", ["type:wal", "000000030000000000000001"]⟩]⟩
        "/data" =
      (.ok (), [StoreCall.findSnapshots ["type:wal"],
        StoreCall.backup "/data" ["type:full", "timeline:3"]]) ∧
    "timeline:3" ∈ ["type:full", "timeline:3"] :=
  ⟨(createBackup_timeline_tags
      ⟨fun _ => [⟨"s1", 0, "h", ["type:wal", "000000030000000000000001"]⟩]⟩
      ⟨"s1", 0, "h", ["type:wal", "000000030000000000000001"]⟩ []
      "000000030000000000000001" ⟨3, 0, 1, "", "", 0⟩ rfl rfl rfl).1,
   (createBackup_timeline_tags
      ⟨fun _ => [⟨"s1", 0, "h", ["type:wal", "000000030000000000000001"]⟩]⟩
      ⟨"s1", 0, "h", ["type:wal", "000000030000000000000001"]⟩ []
      "000000030000000000000001" ⟨3, 0, 1, "", "", 0⟩ rfl rfl rfl).2.2⟩
